import Mathlib

/-!
Verification of the cima-rs bulk XML-to-CSV conversion pipeline.

This development shallowly embeds the pipeline of `src/parser.rs`,
`src/downloader.rs` and `src/bin/nomenclator_csv.rs`:

* the 13 flat catalog ("dictionary") record types and their CSV emission
  (the `impl_xml_parser!` macro instances), including the ATC
  description-cleaning transform;
* the `bool_from_string` deserializer for the `"0"`/`"1"` flag fields of
  a prescription record, and the field-by-field deserialization of a raw
  prescription record;
* the prescription decomposer `parse_prescription_xml_to_csvs`, which
  fans one nested document out into 7 related CSV tables;
* the orchestrator's per-job result handling and final summary counts;
* the archive fetcher's idempotent short-circuit;
* the bounded-concurrency admission discipline of the catalog job pool.

XML deserialization (quick_xml) and the filesystem are external
collaborators: functions are embedded from the point where the document
has been deserialized (or where deserialization has failed), with file
creation and network activity made explicit in the returned values.
The CSV layer is embedded by its observable behavior: `serialize`-based
writers emit the header row together with the first record, while
`write_record`-based writers emit no header row.
-/

set_option autoImplicit false

namespace CimaRs

/-! ## CSV writer behavior

`csv::Writer::serialize` writes a header row (derived from the struct
field names) immediately before the first record; if no record is ever
serialized, no header row is written. `writeCsv` captures that behavior
for a fully written table: the list of data rows prefixed by the header
row whenever at least one data row exists. -/

def writeCsv (headers : List String) (rows : List (List String)) : List (List String) :=
  match rows with
  | [] => []
  | _ => headers :: rows

/-! ## Catalog record types (src/parser.rs lines 28-237)

Field names and order follow the Rust struct declarations; the serde
renames apply to deserialization only, so CSV headers use these names. -/

structure AtcRecord where
  number : Int
  code : String
  description : String
deriving Repr, DecidableEq

structure DcpRecord where
  code : String
  name : String
  dcsa_code : String
deriving Repr, DecidableEq

structure DcpfRecord where
  code : String
  name : String
  dcp_code : String
deriving Repr, DecidableEq

structure DcsaRecord where
  code : String
  name : String
deriving Repr, DecidableEq

structure ContainerRecord where
  code : String
  name : String
deriving Repr, DecidableEq

structure ExcipientRecord where
  code : String
  name : String
deriving Repr, DecidableEq

structure PharmaceuticalFormRecord where
  code : String
  name : String
  simplified_code : String
deriving Repr, DecidableEq

structure SimplifiedPharmaceuticalFormRecord where
  code : String
  name : String
deriving Repr, DecidableEq

structure LaboratoryRecord where
  code : String
  name : String
  address : Option String
  zip : Option String
  city : Option String
  vat : Option String
deriving Repr, DecidableEq

structure ActiveIngridientRecord where
  number : String
  code : String
  name : String
deriving Repr, DecidableEq

structure RegistrationStatusRecord where
  code : String
  name : String
deriving Repr, DecidableEq

structure ContainerUnitRecord where
  code : String
  name : String
deriving Repr, DecidableEq

structure AdministrationRouteRecord where
  code : String
  name : String
deriving Repr, DecidableEq

/-! ## Catalog CSV serialization

One row per record, columns in field declaration order; `Option` fields
absent in the source become empty cells (csv crate behavior, confirmed
by the laboratory test in src/parser.rs). -/

def atcRow (r : AtcRecord) : List String :=
  [toString r.number, r.code, r.description]

def dcpRow (r : DcpRecord) : List String :=
  [r.code, r.name, r.dcsa_code]

def dcpfRow (r : DcpfRecord) : List String :=
  [r.code, r.name, r.dcp_code]

def dcsaRow (r : DcsaRecord) : List String :=
  [r.code, r.name]

def containerRow (r : ContainerRecord) : List String :=
  [r.code, r.name]

def excipientRow (r : ExcipientRecord) : List String :=
  [r.code, r.name]

def pharmaceuticalFormRow (r : PharmaceuticalFormRecord) : List String :=
  [r.code, r.name, r.simplified_code]

def simplifiedPharmaceuticalFormRow (r : SimplifiedPharmaceuticalFormRecord) : List String :=
  [r.code, r.name]

def laboratoryRow (r : LaboratoryRecord) : List String :=
  [r.code, r.name, r.address.getD "", r.zip.getD "", r.city.getD "", r.vat.getD ""]

def activeIngridientRow (r : ActiveIngridientRecord) : List String :=
  [r.number, r.code, r.name]

def registrationStatusRow (r : RegistrationStatusRecord) : List String :=
  [r.code, r.name]

def containerUnitRow (r : ContainerUnitRecord) : List String :=
  [r.code, r.name]

def administrationRouteRow (r : AdministrationRouteRecord) : List String :=
  [r.code, r.name]

/-- ATC description cleaning (src/parser.rs lines 450-463): remove the
exact `"{code} - "` lead from the description when the description
starts with it. Rust checks `starts_with` and then byte-slices at the
lead's length; since a matching string lead always ends on a character
boundary, this equals dropping the lead's characters. -/
def atc_clean_record (r : AtcRecord) : AtcRecord :=
  let pfx := r.code ++ " - "
  if pfx.data.isPrefixOf r.description.data then
    { r with description := ⟨r.description.data.drop pfx.data.length⟩ }
  else r

/-! ## The 13 catalog parsers (impl_xml_parser! instances)

Each parser is embedded from the point where the XML document has been
successfully deserialized into its record list; it serializes each
record in order into the output CSV. The ATC parser additionally applies
`atc_clean_record` to each record before serializing it. -/

def parse_atc_xml_to_csv (records : List AtcRecord) : List (List String) :=
  writeCsv ["number", "code", "description"]
    (records.map fun r => atcRow (atc_clean_record r))

def parse_dcp_xml_to_csv (records : List DcpRecord) : List (List String) :=
  writeCsv ["code", "name", "dcsa_code"] (records.map dcpRow)

def parse_dcpf_xml_to_csv (records : List DcpfRecord) : List (List String) :=
  writeCsv ["code", "name", "dcp_code"] (records.map dcpfRow)

def parse_dcsa_xml_to_csv (records : List DcsaRecord) : List (List String) :=
  writeCsv ["code", "name"] (records.map dcsaRow)

def parse_envases_xml_to_csv (records : List ContainerRecord) : List (List String) :=
  writeCsv ["code", "name"] (records.map containerRow)

def parse_excipientes_xml_to_csv (records : List ExcipientRecord) : List (List String) :=
  writeCsv ["code", "name"] (records.map excipientRow)

def parse_forma_farmaceutica_xml_to_csv (records : List PharmaceuticalFormRecord) :
    List (List String) :=
  writeCsv ["code", "name", "simplified_code"] (records.map pharmaceuticalFormRow)

def parse_forma_farmaceutica_simplificada_xml_to_csv
    (records : List SimplifiedPharmaceuticalFormRecord) : List (List String) :=
  writeCsv ["code", "name"] (records.map simplifiedPharmaceuticalFormRow)

def parse_laboratorio_xml_to_csv (records : List LaboratoryRecord) : List (List String) :=
  writeCsv ["code", "name", "address", "zip", "city", "vat"] (records.map laboratoryRow)

def parse_principio_activo_xml_to_csv (records : List ActiveIngridientRecord) :
    List (List String) :=
  writeCsv ["number", "code", "name"] (records.map activeIngridientRow)

def parse_situacion_registro_xml_to_csv (records : List RegistrationStatusRecord) :
    List (List String) :=
  writeCsv ["code", "name"] (records.map registrationStatusRow)

def parse_unidad_contenido_xml_to_csv (records : List ContainerUnitRecord) :
    List (List String) :=
  writeCsv ["code", "name"] (records.map containerUnitRow)

def parse_via_administracion_xml_to_csv (records : List AdministrationRouteRecord) :
    List (List String) :=
  writeCsv ["code", "name"] (records.map administrationRouteRow)

/-! ## Prescription nested entity structs (src/parser.rs lines 244-319) -/

structure ActiveIngredient where
  active_ingredient_code : Option String
  order : Option String
  dose : Option String
  dose_unit : Option String
  composition_dose : Option String
  composition_unit : Option String
  administration_dose : Option String
  administration_unit : Option String
  prescription_dose : Option String
  prescription_unit : Option String
deriving Repr, DecidableEq

structure AdminRoute where
  route_code : String
deriving Repr, DecidableEq

structure PrescriptionForm where
  form_code : String
  simplified_form_code : String
  num_active_ingredients : Option String
  active_ingredients : List ActiveIngredient
  admin_routes : List AdminRoute
deriving Repr, DecidableEq

structure AtcDuplicate where
  duplicate_atc : String
  description : Option String
  effect : Option String
  recommendation : Option String
deriving Repr, DecidableEq

structure PrescriptionAtc where
  atc_code : String
  duplicates : List AtcDuplicate
deriving Repr, DecidableEq

structure SupplyProblem where
  start_date : Option String
  observations : Option String
deriving Repr, DecidableEq

/-! ## Main prescription record (src/parser.rs lines 325-399)

Fields in declaration order. The 20 `sw_`/flag fields are deserialized
through `bool_from_string`; the three nested collections are skipped
when the main record is serialized to CSV. -/

structure PrescriptionRecord where
  cod_nacion : String
  nro_definitivo : String
  des_nomco : String
  des_prese : String
  cod_dcsa : Option String
  cod_dcp : Option String
  cod_dcpf : Option String
  des_dosific : Option String
  cod_envase : Option String
  contenido : Option String
  unid_contenido : Option String
  nro_conte : Option String
  sw_psicotropo : Bool
  sw_estupefaciente : Bool
  sw_afecta_conduccion : Bool
  sw_triangulo_negro : Bool
  url_fictec : Option String
  url_prosp : Option String
  sw_receta : Bool
  sw_generico : Bool
  sw_sustituible : Bool
  sw_envase_clinico : Bool
  sw_uso_hospitalario : Bool
  sw_diagnostico_hospitalario : Bool
  sw_tld : Bool
  sw_especial_control_medico : Bool
  sw_huerfano : Bool
  sw_base_a_plantas : Bool
  laboratorio_titular : Option String
  laboratorio_comercializador : Option String
  fecha_autorizacion : Option String
  sw_comercializado : Bool
  fec_comer : Option String
  cod_sitreg : Option String
  cod_sitreg_presen : Option String
  fecha_situacion_registro : Option String
  fec_sitreg_presen : Option String
  sw_tiene_excipientes_decl_obligatoria : Bool
  biosimilar : Bool
  importacion_paralela : Bool
  radiofarmaco : Bool
  serializacion : Bool
  forms : Option PrescriptionForm
  atc_codes : List PrescriptionAtc
  supply_problems : List SupplyProblem
deriving Repr, DecidableEq

structure Header where
  listprescriptiondate : String
deriving Repr, DecidableEq

structure PrescriptionList where
  header : Option Header
  records : List PrescriptionRecord
deriving Repr, DecidableEq

/-! ## Boolean flag deserialization (src/parser.rs lines 9-26) -/

/-- The `bool_from_string::deserialize` helper: `"1"` maps to `true`,
`"0"` maps to `false`, anything else is a deserialization error. -/
def bool_from_string (s : String) : Except String Bool :=
  if s = "1" then .ok true
  else if s = "0" then .ok false
  else .error ("expected '0' or '1', got '" ++ s ++ "'")

/-- Serde applies `bool_from_string` to one flag field and feeds the
resulting boolean to the rest of the record deserialization; a field
error fails the whole record. -/
def bindFlag {α : Type} (s : String) (k : Bool → Except String α) : Except String α :=
  (bool_from_string s).bind k

/-- A prescription record as it stands right before the flag fields are
decoded: the 20 flag fields still hold their raw XML strings; all other
fields deserialize without a custom converter and pass through. -/
structure RawPrescriptionRecord where
  cod_nacion : String
  nro_definitivo : String
  des_nomco : String
  des_prese : String
  cod_dcsa : Option String
  cod_dcp : Option String
  cod_dcpf : Option String
  des_dosific : Option String
  cod_envase : Option String
  contenido : Option String
  unid_contenido : Option String
  nro_conte : Option String
  sw_psicotropo : String
  sw_estupefaciente : String
  sw_afecta_conduccion : String
  sw_triangulo_negro : String
  url_fictec : Option String
  url_prosp : Option String
  sw_receta : String
  sw_generico : String
  sw_sustituible : String
  sw_envase_clinico : String
  sw_uso_hospitalario : String
  sw_diagnostico_hospitalario : String
  sw_tld : String
  sw_especial_control_medico : String
  sw_huerfano : String
  sw_base_a_plantas : String
  laboratorio_titular : Option String
  laboratorio_comercializador : Option String
  fecha_autorizacion : Option String
  sw_comercializado : String
  fec_comer : Option String
  cod_sitreg : Option String
  cod_sitreg_presen : Option String
  fecha_situacion_registro : Option String
  fec_sitreg_presen : Option String
  sw_tiene_excipientes_decl_obligatoria : String
  biosimilar : String
  importacion_paralela : String
  radiofarmaco : String
  serializacion : String
  forms : Option PrescriptionForm
  atc_codes : List PrescriptionAtc
  supply_problems : List SupplyProblem
deriving Repr, DecidableEq

/-- The raw strings of the 20 flag fields, in declaration order. -/
def rawFlags (raw : RawPrescriptionRecord) : List String :=
  [raw.sw_psicotropo, raw.sw_estupefaciente, raw.sw_afecta_conduccion,
   raw.sw_triangulo_negro, raw.sw_receta, raw.sw_generico, raw.sw_sustituible,
   raw.sw_envase_clinico, raw.sw_uso_hospitalario, raw.sw_diagnostico_hospitalario,
   raw.sw_tld, raw.sw_especial_control_medico, raw.sw_huerfano,
   raw.sw_base_a_plantas, raw.sw_comercializado,
   raw.sw_tiene_excipientes_decl_obligatoria, raw.biosimilar,
   raw.importacion_paralela, raw.radiofarmaco, raw.serializacion]

/-- Deserialization of one prescription record: each flag field goes
through `bool_from_string` (any failure fails the record); every other
field passes through unchanged. -/
def deserializeRecord (raw : RawPrescriptionRecord) : Except String PrescriptionRecord :=
  bindFlag raw.sw_psicotropo fun sw_psicotropo =>
  bindFlag raw.sw_estupefaciente fun sw_estupefaciente =>
  bindFlag raw.sw_afecta_conduccion fun sw_afecta_conduccion =>
  bindFlag raw.sw_triangulo_negro fun sw_triangulo_negro =>
  bindFlag raw.sw_receta fun sw_receta =>
  bindFlag raw.sw_generico fun sw_generico =>
  bindFlag raw.sw_sustituible fun sw_sustituible =>
  bindFlag raw.sw_envase_clinico fun sw_envase_clinico =>
  bindFlag raw.sw_uso_hospitalario fun sw_uso_hospitalario =>
  bindFlag raw.sw_diagnostico_hospitalario fun sw_diagnostico_hospitalario =>
  bindFlag raw.sw_tld fun sw_tld =>
  bindFlag raw.sw_especial_control_medico fun sw_especial_control_medico =>
  bindFlag raw.sw_huerfano fun sw_huerfano =>
  bindFlag raw.sw_base_a_plantas fun sw_base_a_plantas =>
  bindFlag raw.sw_comercializado fun sw_comercializado =>
  bindFlag raw.sw_tiene_excipientes_decl_obligatoria fun sw_tiene_excipientes_decl_obligatoria =>
  bindFlag raw.biosimilar fun biosimilar =>
  bindFlag raw.importacion_paralela fun importacion_paralela =>
  bindFlag raw.radiofarmaco fun radiofarmaco =>
  bindFlag raw.serializacion fun serializacion =>
  Except.ok
    { cod_nacion := raw.cod_nacion
      nro_definitivo := raw.nro_definitivo
      des_nomco := raw.des_nomco
      des_prese := raw.des_prese
      cod_dcsa := raw.cod_dcsa
      cod_dcp := raw.cod_dcp
      cod_dcpf := raw.cod_dcpf
      des_dosific := raw.des_dosific
      cod_envase := raw.cod_envase
      contenido := raw.contenido
      unid_contenido := raw.unid_contenido
      nro_conte := raw.nro_conte
      sw_psicotropo, sw_estupefaciente, sw_afecta_conduccion, sw_triangulo_negro
      url_fictec := raw.url_fictec
      url_prosp := raw.url_prosp
      sw_receta, sw_generico, sw_sustituible, sw_envase_clinico
      sw_uso_hospitalario, sw_diagnostico_hospitalario, sw_tld
      sw_especial_control_medico, sw_huerfano, sw_base_a_plantas
      laboratorio_titular := raw.laboratorio_titular
      laboratorio_comercializador := raw.laboratorio_comercializador
      fecha_autorizacion := raw.fecha_autorizacion
      sw_comercializado
      fec_comer := raw.fec_comer
      cod_sitreg := raw.cod_sitreg
      cod_sitreg_presen := raw.cod_sitreg_presen
      fecha_situacion_registro := raw.fecha_situacion_registro
      fec_sitreg_presen := raw.fec_sitreg_presen
      sw_tiene_excipientes_decl_obligatoria, biosimilar, importacion_paralela
      radiofarmaco, serializacion
      forms := raw.forms
      atc_codes := raw.atc_codes
      supply_problems := raw.supply_problems }

/-! ## Prescription decomposer (src/parser.rs lines 569-669) -/

/-- csv crate serialization of one boolean cell. -/
def boolCell (b : Bool) : String :=
  if b then "true" else "false"

/-- Header row of `prescriptions.csv`: the serializable (non-skipped)
field names of `PrescriptionRecord` in declaration order. -/
def prescriptionMainHeaders : List String :=
  ["cod_nacion", "nro_definitivo", "des_nomco", "des_prese", "cod_dcsa", "cod_dcp",
   "cod_dcpf", "des_dosific", "cod_envase", "contenido", "unid_contenido", "nro_conte",
   "sw_psicotropo", "sw_estupefaciente", "sw_afecta_conduccion", "sw_triangulo_negro",
   "url_fictec", "url_prosp", "sw_receta", "sw_generico", "sw_sustituible",
   "sw_envase_clinico", "sw_uso_hospitalario", "sw_diagnostico_hospitalario", "sw_tld",
   "sw_especial_control_medico", "sw_huerfano", "sw_base_a_plantas",
   "laboratorio_titular", "laboratorio_comercializador", "fecha_autorizacion",
   "sw_comercializado", "fec_comer", "cod_sitreg", "cod_sitreg_presen",
   "fecha_situacion_registro", "fec_sitreg_presen",
   "sw_tiene_excipientes_decl_obligatoria", "biosimilar", "importacion_paralela",
   "radiofarmaco", "serializacion"]

/-- Serialization of the scalar fields of one prescription record for
`prescriptions.csv`; the nested collections are excluded via
`skip_serializing`. -/
def prescriptionMainRow (r : PrescriptionRecord) : List String :=
  [r.cod_nacion, r.nro_definitivo, r.des_nomco, r.des_prese, r.cod_dcsa.getD "",
   r.cod_dcp.getD "", r.cod_dcpf.getD "", r.des_dosific.getD "", r.cod_envase.getD "",
   r.contenido.getD "", r.unid_contenido.getD "", r.nro_conte.getD "",
   boolCell r.sw_psicotropo, boolCell r.sw_estupefaciente,
   boolCell r.sw_afecta_conduccion, boolCell r.sw_triangulo_negro,
   r.url_fictec.getD "", r.url_prosp.getD "", boolCell r.sw_receta,
   boolCell r.sw_generico, boolCell r.sw_sustituible, boolCell r.sw_envase_clinico,
   boolCell r.sw_uso_hospitalario, boolCell r.sw_diagnostico_hospitalario,
   boolCell r.sw_tld, boolCell r.sw_especial_control_medico, boolCell r.sw_huerfano,
   boolCell r.sw_base_a_plantas, r.laboratorio_titular.getD "",
   r.laboratorio_comercializador.getD "", r.fecha_autorizacion.getD "",
   boolCell r.sw_comercializado, r.fec_comer.getD "", r.cod_sitreg.getD "",
   r.cod_sitreg_presen.getD "", r.fecha_situacion_registro.getD "",
   r.fec_sitreg_presen.getD "", boolCell r.sw_tiene_excipientes_decl_obligatoria,
   boolCell r.biosimilar, boolCell r.importacion_paralela, boolCell r.radiofarmaco,
   boolCell r.serializacion]

/-- Content of the 7 CSV output files of the prescription decomposer,
each as a list of rows (the main table includes its header row; the
child tables are written with `write_record`, which emits no header). -/
structure PrescriptionCsvs where
  main : List (List String)
  forms : List (List String)
  ingredients : List (List String)
  routes : List (List String)
  atc : List (List String)
  atcDuplicates : List (List String)
  supply : List (List String)
deriving Repr, DecidableEq

/-- Rows appended to `prescription_forms.csv` for one record. -/
def formRows (id : String) (forms : Option PrescriptionForm) : List (List String) :=
  match forms with
  | none => []
  | some f => [[id, f.form_code, f.simplified_form_code,
                f.num_active_ingredients.getD ""]]

/-- One row of `prescription_active_ingredients.csv`. -/
def ingredientRow (id : String) (i : ActiveIngredient) : List String :=
  [id, i.active_ingredient_code.getD "", i.order.getD "", i.dose.getD "",
   i.dose_unit.getD "", i.composition_dose.getD "", i.composition_unit.getD "",
   i.administration_dose.getD "", i.administration_unit.getD "",
   i.prescription_dose.getD "", i.prescription_unit.getD ""]

/-- Rows appended to `prescription_active_ingredients.csv` for one record. -/
def ingredientRows (id : String) (forms : Option PrescriptionForm) : List (List String) :=
  match forms with
  | none => []
  | some f => f.active_ingredients.map (ingredientRow id)

/-- Rows appended to `prescription_admin_routes.csv` for one record. -/
def routeRows (id : String) (forms : Option PrescriptionForm) : List (List String) :=
  match forms with
  | none => []
  | some f => f.admin_routes.map fun route => [id, route.route_code]

/-- Rows appended to `prescription_atc.csv` for one record. -/
def atcRows (id : String) (atcs : List PrescriptionAtc) : List (List String) :=
  atcs.map fun a => [id, a.atc_code]

/-- Rows appended to `prescription_atc_duplicates.csv` for one record:
each duplicate row carries both the prescription id and the parent ATC
code. -/
def atcDuplicateRows (id : String) (atcs : List PrescriptionAtc) : List (List String) :=
  atcs.flatMap fun a =>
    a.duplicates.map fun d =>
      [id, a.atc_code, d.duplicate_atc, d.description.getD "", d.effect.getD "",
       d.recommendation.getD ""]

/-- Rows appended to `prescription_supply_problems.csv` for one record. -/
def supplyRows (id : String) (problems : List SupplyProblem) : List (List String) :=
  problems.map fun p => [id, p.start_date.getD "", p.observations.getD ""]

/-- The single pass over the record list: for each record, in document
order, emit its main row, its form row (if any) with nested ingredient
and route rows, its ATC rows with nested duplicate rows, and its supply
problem rows, each keyed by the record's `cod_nacion`. -/
def decomposeRecords : List PrescriptionRecord → PrescriptionCsvs
  | [] => ⟨[], [], [], [], [], [], []⟩
  | r :: rest =>
    let c := decomposeRecords rest
    let id := r.cod_nacion
    ⟨prescriptionMainRow r :: c.main,
     formRows id r.forms ++ c.forms,
     ingredientRows id r.forms ++ c.ingredients,
     routeRows id r.forms ++ c.routes,
     atcRows id r.atc_codes ++ c.atc,
     atcDuplicateRows id r.atc_codes ++ c.atcDuplicates,
     supplyRows id r.supply_problems ++ c.supply⟩

/-- The 7 output file names, in creation order. -/
def prescriptionCsvFileNames : List String :=
  ["prescriptions.csv", "prescription_forms.csv",
   "prescription_active_ingredients.csv", "prescription_admin_routes.csv",
   "prescription_atc.csv", "prescription_atc_duplicates.csv",
   "prescription_supply_problems.csv"]

/-- `parse_prescription_xml_to_csvs`: deserialization happens first
(`from_reader(...)?`); only afterwards are the 7 CSV writers created.
The embedding takes the deserialization outcome and returns the overall
result, the 7 file contents on success, and the list of files created
(empty when deserialization failed, since the `?` returns before any
`csv::Writer::from_path` call). -/
def parse_prescription_xml_to_csvs (deser : Except String PrescriptionList) :
    Except String PrescriptionCsvs × List String :=
  match deser with
  | .error e => (.error e, [])
  | .ok list =>
    let c := decomposeRecords list.records
    (.ok { c with main := writeCsv prescriptionMainHeaders c.main },
     prescriptionCsvFileNames)

/-! ## Orchestrator (src/bin/nomenclator_csv.rs)

Each catalog job closure (lines 145-169) first checks whether the
source XML file exists; an absent file yields `Ok((xml, csv, false))`
("skipped") without running the parser. Otherwise the parser runs on a
blocking task and the job yields `Ok((xml, csv, true))` on success or
`Err(e)` on a parse or join error. The summary (lines 203-225) counts
`Ok` results as successful and `Err` results as failed, and the process
bails out iff some job failed or the prescription step failed. -/

/-- Input of one catalog job: file names, whether the source XML file
exists, and the outcome the parser (or the task join) would produce. -/
structure CatalogJob where
  xmlName : String
  csvName : String
  present : Bool
  parseOutcome : Except String Unit
deriving Repr

/-- The per-job closure of the orchestrator. -/
def runCatalogJob (j : CatalogJob) : Except String (String × String × Bool) :=
  if !j.present then .ok (j.xmlName, j.csvName, false)
  else
    match j.parseOutcome with
    | .ok _ => .ok (j.xmlName, j.csvName, true)
    | .error e => .error e

/-- `successful = results.iter().filter(|r| r.is_ok()).count()`. -/
def successfulCount (results : List (Except String (String × String × Bool))) : Nat :=
  (results.filter fun r => r.isOk).length

/-- `failed = results.iter().filter(|r| r.is_err()).count()`. -/
def failedCount (results : List (Except String (String × String × Bool))) : Nat :=
  (results.filter fun r => !r.isOk).length

/-- `if failed > 0 || !prescription_success { bail }`: the run fails
overall iff some catalog job failed or the prescription step failed,
computed only after every job result has been collected. -/
def overallFailure (results : List (Except String (String × String × Bool)))
    (prescriptionOk : Bool) : Bool :=
  decide (0 < failedCount results) || !prescriptionOk

/-- The prescription step (lines 176-200): if `Prescripcion.xml` exists,
run the decomposer and keep its outcome together with the files it
created; if the file is absent, print a warning and yield `Ok(())`
without touching the output directory. -/
def prescriptionStep (present : Bool) (deser : Except String PrescriptionList) :
    Except String Unit × List String :=
  if present then
    let out := parse_prescription_xml_to_csvs deser
    (out.1.map fun _ => (), out.2)
  else (.ok (), [])

/-! ## Archive fetcher (src/downloader.rs lines 10-56)

The network and the ZIP archive are external collaborators; the state
of the target directory is explicit. `read_dir` failure maps to
`readable = false` (the code's `unwrap_or(false)`). The returned `Nat`
counts the HTTP GET requests performed by the call. -/

/-- Observable state of the target directory. -/
structure DirState where
  present : Bool
  readable : Bool
  entries : List String
deriving Repr, DecidableEq

/-- `download_and_extract_nomenclator`: if the target directory exists
and `read_dir` yields at least one entry, return the path at once with
no network request and no directory change. Otherwise create the
directory, perform one HTTP GET (`net` is the downloaded archive's
entry-name list, or the network/archive error), and extract every entry
into the directory. -/
def download_and_extract_nomenclator (targetDir : String) (dir : DirState)
    (net : Except String (List String)) :
    Except String String × DirState × Nat :=
  if dir.present && (dir.readable && !dir.entries.isEmpty) then
    (.ok targetDir, dir, 0)
  else
    match net with
    | .error e => (.error e, { present := true, readable := true, entries := dir.entries }, 1)
    | .ok names =>
      (.ok targetDir,
       { present := true, readable := true,
         entries := dir.entries ++ names.filter fun n => !n.endsWith "/" }, 1)

/-! ## Bounded worker pool (src/bin/nomenclator_csv.rs line 171)

`buffer_unordered(concurrency)` admits a new job future from the stream
only while fewer than `concurrency` futures are in flight; a completed
job frees its slot. The admission discipline is a step relation on the
job counters. -/

/-- Counters of the catalog job pool: jobs not yet admitted, jobs
currently running, jobs completed. -/
structure PoolState where
  pending : Nat
  running : Nat
  done : Nat
deriving Repr, DecidableEq

/-- One scheduling step of `buffer_unordered k`: `start` admits a
pending job only while fewer than `k` jobs are running; `finish`
completes a running job. -/
inductive PoolStep (k : Nat) : PoolState → PoolState → Prop
  | start (p r d : Nat) : r < k → PoolStep k ⟨p + 1, r, d⟩ ⟨p, r + 1, d⟩
  | finish (p r d : Nat) : PoolStep k ⟨p, r + 1, d⟩ ⟨p, r, d + 1⟩

/-- States the pool can reach from a given state. -/
def PoolReachable (k : Nat) : PoolState → PoolState → Prop :=
  Relation.ReflTransGen (PoolStep k)

/-! ## Helper lemmas -/

theorem isOk_bool_from_string (s : String) :
    (bool_from_string s).isOk = (s == "1" || s == "0") := by
  unfold bool_from_string
  by_cases h1 : s = "1"
  · simp [h1, Except.isOk, Except.toBool]
  · by_cases h0 : s = "0" <;> simp [h1, h0, Except.isOk, Except.toBool]

theorem isOk_bindFlag {α : Type} (s : String) (k : Bool → Except String α) :
    (bindFlag s k).isOk = ((s == "1" || s == "0") && (k (s == "1")).isOk) := by
  unfold bindFlag bool_from_string
  by_cases h1 : s = "1"
  · simp [h1, Except.bind]
  · by_cases h0 : s = "0" <;>
      simp [h1, h0, Except.bind, Except.isOk, Except.toBool]

theorem bindFlag_eq_ok {α : Type} (s : String) (k : Bool → Except String α) (a : α) :
    bindFlag s k = .ok a ↔ ((s = "1" ∨ s = "0") ∧ k (s == "1") = .ok a) := by
  unfold bindFlag bool_from_string
  by_cases h1 : s = "1"
  · simp [h1, Except.bind]
  · by_cases h0 : s = "0" <;> simp [h1, h0, Except.bind]

theorem isOk_ok {ε α : Type} (a : α) : (Except.ok a : Except ε α).isOk = true := rfl

theorem isOk_deserializeRecord (raw : RawPrescriptionRecord) :
    (deserializeRecord raw).isOk = (rawFlags raw).all fun t => t == "1" || t == "0" := by
  simp only [deserializeRecord, isOk_bindFlag, isOk_ok, rawFlags, List.all_cons,
    List.all_nil, Bool.and_true]

theorem deserializeRecord_flag_values (raw : RawPrescriptionRecord)
    (b : PrescriptionRecord) (h : deserializeRecord raw = .ok b) :
    b.sw_psicotropo = (raw.sw_psicotropo == "1") ∧
    b.sw_estupefaciente = (raw.sw_estupefaciente == "1") ∧
    b.sw_afecta_conduccion = (raw.sw_afecta_conduccion == "1") ∧
    b.sw_triangulo_negro = (raw.sw_triangulo_negro == "1") ∧
    b.sw_receta = (raw.sw_receta == "1") ∧
    b.sw_generico = (raw.sw_generico == "1") ∧
    b.sw_sustituible = (raw.sw_sustituible == "1") ∧
    b.sw_envase_clinico = (raw.sw_envase_clinico == "1") ∧
    b.sw_uso_hospitalario = (raw.sw_uso_hospitalario == "1") ∧
    b.sw_diagnostico_hospitalario = (raw.sw_diagnostico_hospitalario == "1") ∧
    b.sw_tld = (raw.sw_tld == "1") ∧
    b.sw_especial_control_medico = (raw.sw_especial_control_medico == "1") ∧
    b.sw_huerfano = (raw.sw_huerfano == "1") ∧
    b.sw_base_a_plantas = (raw.sw_base_a_plantas == "1") ∧
    b.sw_comercializado = (raw.sw_comercializado == "1") ∧
    b.sw_tiene_excipientes_decl_obligatoria =
      (raw.sw_tiene_excipientes_decl_obligatoria == "1") ∧
    b.biosimilar = (raw.biosimilar == "1") ∧
    b.importacion_paralela = (raw.importacion_paralela == "1") ∧
    b.radiofarmaco = (raw.radiofarmaco == "1") ∧
    b.serializacion = (raw.serializacion == "1") := by
  simp only [deserializeRecord, bindFlag_eq_ok, Except.ok.injEq] at h
  obtain ⟨-, -, -, -, -, -, -, -, -, -, -, -, -, -, -, -, -, -, -, -, h⟩ := h
  subst h
  exact ⟨rfl, rfl, rfl, rfl, rfl, rfl, rfl, rfl, rfl, rfl, rfl, rfl, rfl, rfl, rfl,
    rfl, rfl, rfl, rfl, rfl⟩

/-- C2: every boolean flag field of a prescription record deserializes
`"1"` to `true` and `"0"` to `false`; the whole record deserializes
successfully exactly when every flag field is `"0"` or `"1"`, so any
other flag value (e.g. `"2"` or `"yes"`) fails the record with a parse
error and is never silently coerced. -/
theorem bool_flag_parsing_exact (raw : RawPrescriptionRecord) (s : String) :
    bool_from_string "1" = .ok true ∧
    bool_from_string "0" = .ok false ∧
    (s ≠ "1" → s ≠ "0" → (bool_from_string s).isOk = false) ∧
    ((deserializeRecord raw).isOk = true ↔ ∀ t ∈ rawFlags raw, t = "1" ∨ t = "0") ∧
    (∀ b, deserializeRecord raw = .ok b →
      b.sw_psicotropo = (raw.sw_psicotropo == "1") ∧
      b.serializacion = (raw.serializacion == "1")) := by
  refine ⟨by simp [bool_from_string], by simp [bool_from_string], ?_, ?_, ?_⟩
  · intro h1 h0
    rw [isOk_bool_from_string]
    simp [h1, h0]
  · rw [isOk_deserializeRecord]
    simp [List.all_eq_true]
  · intro b h
    obtain ⟨h1, -, -, -, -, -, -, -, -, -, -, -, -, -, -, -, -, -, -, h20⟩ :=
      deserializeRecord_flag_values raw b h
    exact ⟨h1, h20⟩

/-- A raw prescription record used to instantiate the flag-parsing
theorem on concrete input. -/
def exampleRawRecord : RawPrescriptionRecord :=
  { cod_nacion := "600000", nro_definitivo := "66337", des_nomco := "TEST"
    des_prese := "TEST", cod_dcsa := none, cod_dcp := none, cod_dcpf := none
    des_dosific := none, cod_envase := none, contenido := none
    unid_contenido := none, nro_conte := none
    sw_psicotropo := "0", sw_estupefaciente := "0", sw_afecta_conduccion := "0"
    sw_triangulo_negro := "0", url_fictec := none, url_prosp := none
    sw_receta := "1", sw_generico := "1", sw_sustituible := "1"
    sw_envase_clinico := "1", sw_uso_hospitalario := "1"
    sw_diagnostico_hospitalario := "0", sw_tld := "0"
    sw_especial_control_medico := "0", sw_huerfano := "0", sw_base_a_plantas := "0"
    laboratorio_titular := none, laboratorio_comercializador := none
    fecha_autorizacion := none, sw_comercializado := "0", fec_comer := none
    cod_sitreg := none, cod_sitreg_presen := none, fecha_situacion_registro := none
    fec_sitreg_presen := none, sw_tiene_excipientes_decl_obligatoria := "0"
    biosimilar := "0", importacion_paralela := "0", radiofarmaco := "0"
    serializacion := "1", forms := none, atc_codes := [], supply_problems := [] }

/-- Witness for C2: the rejection branch evaluated at the literal `"2"`. -/
theorem bool_flag_parsing_exact_witness : (bool_from_string "2").isOk = false :=
  (bool_flag_parsing_exact exampleRawRecord "2").2.2.1 (by decide) (by decide)

/-- C3: when deserialization of the prescription document fails, the
function returns the deserialization error and the list of files it
created is empty — the error return precedes every writer creation, so
the output directory is untouched. -/
theorem prescription_error_writes_no_files (e : String) :
    parse_prescription_xml_to_csvs (.error e) = (.error e, []) := rfl

theorem atc_clean_record_number (r : AtcRecord) :
    (atc_clean_record r).number = r.number := by
  simp only [atc_clean_record]
  split <;> rfl

theorem atc_clean_record_code (r : AtcRecord) :
    (atc_clean_record r).code = r.code := by
  simp only [atc_clean_record]
  split <;> rfl

/-- C4: the ATC parser's record transform removes the exact
`"{code} - "` lead from the description when the description starts
with it, and leaves the description unchanged otherwise; in particular
code `"A01"` with description `"A01 - DIGESTIVE"` yields description
`"DIGESTIVE"`. -/
theorem atc_description_prefix_removal (r : AtcRecord) (rest : String) :
    (r.description = r.code ++ " - " ++ rest →
      (atc_clean_record r).description = rest) ∧
    ((¬ ∃ t : String, r.description = r.code ++ " - " ++ t) →
      (atc_clean_record r).description = r.description) ∧
    atc_clean_record ⟨1, "A01", "A01 - DIGESTIVE"⟩ = ⟨1, "A01", "DIGESTIVE"⟩ := by
  refine ⟨?_, ?_, by decide⟩
  · intro h
    have hdata : r.description.data = (r.code ++ " - ").data ++ rest.data := by
      rw [h, String.data_append]
    have hpf : ((r.code ++ " - ").data).isPrefixOf r.description.data = true := by
      rw [List.isPrefixOf_iff_prefix, hdata]
      exact ⟨rest.data, rfl⟩
    simp only [atc_clean_record, hpf, if_true]
    rw [hdata, List.drop_left]
  · intro hno
    have hpf : ((r.code ++ " - ").data).isPrefixOf r.description.data = false := by
      by_contra hc
      rw [Bool.not_eq_false, List.isPrefixOf_iff_prefix] at hc
      obtain ⟨t, ht⟩ := hc
      refine hno ⟨⟨t⟩, String.ext ?_⟩
      rw [String.data_append]
      exact ht.symm
    simp only [atc_clean_record, hpf, Bool.false_eq_true, if_false]

/-- Witness for C4: the stripping branch evaluated on the concrete
`"A01"` record. -/
theorem atc_description_prefix_removal_witness :
    (atc_clean_record ⟨1, "A01", "A01 - DIGESTIVE"⟩).description = "DIGESTIVE" :=
  (atc_description_prefix_removal ⟨1, "A01", "A01 - DIGESTIVE"⟩ "DIGESTIVE").1 (by decide)

/-- C1: deserializing a document with exactly one prescription record —
`cod_nacion = "600000"`, one pharmaceutical form holding one active
ingredient and one administration route, one ATC assignment with no
duplicates, and no supply problems — creates exactly the 7 CSV files
and produces 1 main data row (after the header), 1 form row, 1
active-ingredient row, 1 admin-route row, 1 ATC row, 0 ATC-duplicate
rows and 0 supply-problem rows, every child row keyed by `"600000"`. -/
theorem prescription_single_record_decomposition
    (r : PrescriptionRecord) (hd : Option Header) (f : PrescriptionForm)
    (i : ActiveIngredient) (v : AdminRoute) (a : PrescriptionAtc)
    (hcn : r.cod_nacion = "600000")
    (hf : r.forms = some f)
    (hi : f.active_ingredients = [i])
    (hv : f.admin_routes = [v])
    (ha : r.atc_codes = [a])
    (hdup : a.duplicates = [])
    (hs : r.supply_problems = []) :
    (parse_prescription_xml_to_csvs (.ok ⟨hd, [r]⟩)).2 = prescriptionCsvFileNames ∧
    prescriptionCsvFileNames.length = 7 ∧
    ∃ c : PrescriptionCsvs,
      (parse_prescription_xml_to_csvs (.ok ⟨hd, [r]⟩)).1 = .ok c ∧
      c.main.length = 2 ∧ c.main.head? = some prescriptionMainHeaders ∧
      c.forms.length = 1 ∧ c.ingredients.length = 1 ∧ c.routes.length = 1 ∧
      c.atc.length = 1 ∧ c.atcDuplicates = [] ∧ c.supply = [] ∧
      ∀ row ∈ c.forms ++ c.ingredients ++ c.routes ++ c.atc,
        row.head? = some "600000" := by
  refine ⟨rfl, rfl, ?_⟩
  refine ⟨_, rfl, ?_⟩
  simp [parse_prescription_xml_to_csvs, decomposeRecords, formRows, ingredientRows,
    routeRows, atcRows, atcDuplicateRows, supplyRows, writeCsv, ingredientRow,
    hcn, hf, hi, hv, ha, hdup, hs]

/-- Concrete nested entities for the C1 witness, matching the
`test_parse_prescription_to_multi_csv` fixture in src/parser.rs. -/
def exampleIngredient : ActiveIngredient :=
  ⟨some "160", none, none, none, none, none, none, none, none, none⟩

def exampleRoute : AdminRoute := ⟨"49"⟩

def exampleForm : PrescriptionForm :=
  ⟨"288", "34", some "1", [exampleIngredient], [exampleRoute]⟩

def exampleAtc : PrescriptionAtc := ⟨"J01CR02", []⟩

def examplePrescription : PrescriptionRecord :=
  { cod_nacion := "600000", nro_definitivo := "66337", des_nomco := "TEST"
    des_prese := "TEST", cod_dcsa := none, cod_dcp := none, cod_dcpf := none
    des_dosific := none, cod_envase := none, contenido := none
    unid_contenido := none, nro_conte := none
    sw_psicotropo := false, sw_estupefaciente := false
    sw_afecta_conduccion := false, sw_triangulo_negro := false
    url_fictec := none, url_prosp := none
    sw_receta := true, sw_generico := true, sw_sustituible := true
    sw_envase_clinico := true, sw_uso_hospitalario := true
    sw_diagnostico_hospitalario := false, sw_tld := false
    sw_especial_control_medico := false, sw_huerfano := false
    sw_base_a_plantas := false, laboratorio_titular := none
    laboratorio_comercializador := none, fecha_autorizacion := none
    sw_comercializado := false, fec_comer := none, cod_sitreg := none
    cod_sitreg_presen := none, fecha_situacion_registro := none
    fec_sitreg_presen := none, sw_tiene_excipientes_decl_obligatoria := false
    biosimilar := false, importacion_paralela := false, radiofarmaco := false
    serializacion := true, forms := some exampleForm, atc_codes := [exampleAtc]
    supply_problems := [] }

/-- Witness for C1: the decomposition evaluated on the concrete
single-record document. -/
theorem prescription_single_record_decomposition_witness :
    (parse_prescription_xml_to_csvs
        (.ok ⟨none, [examplePrescription]⟩)).2 = prescriptionCsvFileNames ∧
    prescriptionCsvFileNames.length = 7 :=
  let h := prescription_single_record_decomposition examplePrescription none
    exampleForm exampleIngredient exampleRoute exampleAtc rfl rfl rfl rfl rfl rfl rfl
  ⟨h.1, h.2.1⟩

theorem writeCsv_eq_cons (hd : List String) (rows : List (List String))
    (hne : rows ≠ []) : writeCsv hd rows = hd :: rows := by
  cases rows with
  | nil => exact absurd rfl hne
  | cons x xs => rfl

/-- Shape of every catalog CSV built from a nonempty record list: one
header row, then one data row per record in order. -/
theorem catalogCsv_spec {α : Type} (hd : List String) (f : α → List String)
    (rs : List α) (hne : rs ≠ []) :
    (writeCsv hd (rs.map f)).length = rs.length + 1 ∧
    (writeCsv hd (rs.map f)).head? = some hd ∧
    ∀ i (hi : i < rs.length), (writeCsv hd (rs.map f))[i + 1]? = some (f rs[i]) := by
  have hmap : rs.map f ≠ [] := by simpa using hne
  rw [writeCsv_eq_cons hd (rs.map f) hmap]
  refine ⟨by simp, rfl, ?_⟩
  intro i hi
  simp [List.getElem?_map, List.getElem?_eq_getElem, hi]

/-- C5: each of the 13 catalog parsers turns a successfully
deserialized record list into a CSV with exactly one header row of the
semantic (Rust-side) field names followed by exactly one data row per
record, columns in field declaration order with the source values
verbatim — except the ATC parser, whose description column goes through
the `"{code} - "`-stripping transform. (A successfully deserialized
dictionary file always holds at least one record, since the record list
field of each XML root has no serde default.) -/
theorem catalog_parsers_shape :
    (∀ rs : List AtcRecord, rs ≠ [] →
      (parse_atc_xml_to_csv rs).length = rs.length + 1 ∧
      (parse_atc_xml_to_csv rs).head? = some ["number", "code", "description"] ∧
      ∀ i (hi : i < rs.length), (parse_atc_xml_to_csv rs)[i + 1]? =
        some [toString rs[i].number, rs[i].code,
          (atc_clean_record rs[i]).description]) ∧
    (∀ rs : List DcpRecord, rs ≠ [] →
      (parse_dcp_xml_to_csv rs).length = rs.length + 1 ∧
      (parse_dcp_xml_to_csv rs).head? = some ["code", "name", "dcsa_code"] ∧
      ∀ i (hi : i < rs.length), (parse_dcp_xml_to_csv rs)[i + 1]? =
        some [rs[i].code, rs[i].name, rs[i].dcsa_code]) ∧
    (∀ rs : List DcpfRecord, rs ≠ [] →
      (parse_dcpf_xml_to_csv rs).length = rs.length + 1 ∧
      (parse_dcpf_xml_to_csv rs).head? = some ["code", "name", "dcp_code"] ∧
      ∀ i (hi : i < rs.length), (parse_dcpf_xml_to_csv rs)[i + 1]? =
        some [rs[i].code, rs[i].name, rs[i].dcp_code]) ∧
    (∀ rs : List DcsaRecord, rs ≠ [] →
      (parse_dcsa_xml_to_csv rs).length = rs.length + 1 ∧
      (parse_dcsa_xml_to_csv rs).head? = some ["code", "name"] ∧
      ∀ i (hi : i < rs.length), (parse_dcsa_xml_to_csv rs)[i + 1]? =
        some [rs[i].code, rs[i].name]) ∧
    (∀ rs : List ContainerRecord, rs ≠ [] →
      (parse_envases_xml_to_csv rs).length = rs.length + 1 ∧
      (parse_envases_xml_to_csv rs).head? = some ["code", "name"] ∧
      ∀ i (hi : i < rs.length), (parse_envases_xml_to_csv rs)[i + 1]? =
        some [rs[i].code, rs[i].name]) ∧
    (∀ rs : List ExcipientRecord, rs ≠ [] →
      (parse_excipientes_xml_to_csv rs).length = rs.length + 1 ∧
      (parse_excipientes_xml_to_csv rs).head? = some ["code", "name"] ∧
      ∀ i (hi : i < rs.length), (parse_excipientes_xml_to_csv rs)[i + 1]? =
        some [rs[i].code, rs[i].name]) ∧
    (∀ rs : List PharmaceuticalFormRecord, rs ≠ [] →
      (parse_forma_farmaceutica_xml_to_csv rs).length = rs.length + 1 ∧
      (parse_forma_farmaceutica_xml_to_csv rs).head? =
        some ["code", "name", "simplified_code"] ∧
      ∀ i (hi : i < rs.length), (parse_forma_farmaceutica_xml_to_csv rs)[i + 1]? =
        some [rs[i].code, rs[i].name, rs[i].simplified_code]) ∧
    (∀ rs : List SimplifiedPharmaceuticalFormRecord, rs ≠ [] →
      (parse_forma_farmaceutica_simplificada_xml_to_csv rs).length = rs.length + 1 ∧
      (parse_forma_farmaceutica_simplificada_xml_to_csv rs).head? =
        some ["code", "name"] ∧
      ∀ i (hi : i < rs.length),
        (parse_forma_farmaceutica_simplificada_xml_to_csv rs)[i + 1]? =
          some [rs[i].code, rs[i].name]) ∧
    (∀ rs : List LaboratoryRecord, rs ≠ [] →
      (parse_laboratorio_xml_to_csv rs).length = rs.length + 1 ∧
      (parse_laboratorio_xml_to_csv rs).head? =
        some ["code", "name", "address", "zip", "city", "vat"] ∧
      ∀ i (hi : i < rs.length), (parse_laboratorio_xml_to_csv rs)[i + 1]? =
        some [rs[i].code, rs[i].name, rs[i].address.getD "", rs[i].zip.getD "",
          rs[i].city.getD "", rs[i].vat.getD ""]) ∧
    (∀ rs : List ActiveIngridientRecord, rs ≠ [] →
      (parse_principio_activo_xml_to_csv rs).length = rs.length + 1 ∧
      (parse_principio_activo_xml_to_csv rs).head? = some ["number", "code", "name"] ∧
      ∀ i (hi : i < rs.length), (parse_principio_activo_xml_to_csv rs)[i + 1]? =
        some [rs[i].number, rs[i].code, rs[i].name]) ∧
    (∀ rs : List RegistrationStatusRecord, rs ≠ [] →
      (parse_situacion_registro_xml_to_csv rs).length = rs.length + 1 ∧
      (parse_situacion_registro_xml_to_csv rs).head? = some ["code", "name"] ∧
      ∀ i (hi : i < rs.length), (parse_situacion_registro_xml_to_csv rs)[i + 1]? =
        some [rs[i].code, rs[i].name]) ∧
    (∀ rs : List ContainerUnitRecord, rs ≠ [] →
      (parse_unidad_contenido_xml_to_csv rs).length = rs.length + 1 ∧
      (parse_unidad_contenido_xml_to_csv rs).head? = some ["code", "name"] ∧
      ∀ i (hi : i < rs.length), (parse_unidad_contenido_xml_to_csv rs)[i + 1]? =
        some [rs[i].code, rs[i].name]) ∧
    (∀ rs : List AdministrationRouteRecord, rs ≠ [] →
      (parse_via_administracion_xml_to_csv rs).length = rs.length + 1 ∧
      (parse_via_administracion_xml_to_csv rs).head? = some ["code", "name"] ∧
      ∀ i (hi : i < rs.length), (parse_via_administracion_xml_to_csv rs)[i + 1]? =
        some [rs[i].code, rs[i].name]) := by
  refine ⟨?_, ?_, ?_, ?_, ?_, ?_, ?_, ?_, ?_, ?_, ?_, ?_, ?_⟩ <;>
    (intro rs hne
     obtain ⟨h1, h2, h3⟩ := catalogCsv_spec _ _ rs hne
     refine ⟨h1, h2, fun i hi => ?_⟩
     exact (h3 i hi).trans (by
       simp [atcRow, dcpRow, dcpfRow, dcsaRow, containerRow, excipientRow,
         pharmaceuticalFormRow, simplifiedPharmaceuticalFormRow, laboratoryRow,
         activeIngridientRow, registrationStatusRow, containerUnitRow,
         administrationRouteRow, atc_clean_record_number, atc_clean_record_code]))

/-- Witness for C5: every catalog parser evaluated on a concrete
one-record list. -/
theorem catalog_parsers_shape_witness :
    (parse_atc_xml_to_csv [⟨1, "A01", "A01 - DIGESTIVE"⟩]).length = 1 + 1 ∧
    (parse_dcp_xml_to_csv [⟨"D01", "DCP NAME", "S01"⟩]).length = 1 + 1 ∧
    (parse_dcpf_xml_to_csv [⟨"DF01", "DCPF NAME", "D01"⟩]).length = 1 + 1 ∧
    (parse_dcsa_xml_to_csv [⟨"S01", "DCSA NAME"⟩]).length = 1 + 1 ∧
    (parse_envases_xml_to_csv [⟨"E01", "ENVASE NAME"⟩]).length = 1 + 1 ∧
    (parse_excipientes_xml_to_csv [⟨"X01", "EXCIPIENTE NAME"⟩]).length = 1 + 1 ∧
    (parse_forma_farmaceutica_xml_to_csv
      [⟨"FF01", "FORMA NAME", "SFF01"⟩]).length = 1 + 1 ∧
    (parse_forma_farmaceutica_simplificada_xml_to_csv
      [⟨"SFF01", "SIMPLIFIED NAME"⟩]).length = 1 + 1 ∧
    (parse_laboratorio_xml_to_csv
      [⟨"L01", "LAB NAME", none, none, none, none⟩]).length = 1 + 1 ∧
    (parse_principio_activo_xml_to_csv [⟨"1", "PA01", "PRINCIPIO NAME"⟩]).length =
      1 + 1 ∧
    (parse_situacion_registro_xml_to_csv [⟨"1", "Autorizado"⟩]).length = 1 + 1 ∧
    (parse_unidad_contenido_xml_to_csv [⟨"1", "ampolla"⟩]).length = 1 + 1 ∧
    (parse_via_administracion_xml_to_csv [⟨"7", "ORAL"⟩]).length = 1 + 1 :=
  ⟨(catalog_parsers_shape.1 _ (List.cons_ne_nil _ _)).1,
   (catalog_parsers_shape.2.1 _ (List.cons_ne_nil _ _)).1,
   (catalog_parsers_shape.2.2.1 _ (List.cons_ne_nil _ _)).1,
   (catalog_parsers_shape.2.2.2.1 _ (List.cons_ne_nil _ _)).1,
   (catalog_parsers_shape.2.2.2.2.1 _ (List.cons_ne_nil _ _)).1,
   (catalog_parsers_shape.2.2.2.2.2.1 _ (List.cons_ne_nil _ _)).1,
   (catalog_parsers_shape.2.2.2.2.2.2.1 _ (List.cons_ne_nil _ _)).1,
   (catalog_parsers_shape.2.2.2.2.2.2.2.1 _ (List.cons_ne_nil _ _)).1,
   (catalog_parsers_shape.2.2.2.2.2.2.2.2.1 _ (List.cons_ne_nil _ _)).1,
   (catalog_parsers_shape.2.2.2.2.2.2.2.2.2.1 _ (List.cons_ne_nil _ _)).1,
   (catalog_parsers_shape.2.2.2.2.2.2.2.2.2.2.1 _ (List.cons_ne_nil _ _)).1,
   (catalog_parsers_shape.2.2.2.2.2.2.2.2.2.2.2.1 _ (List.cons_ne_nil _ _)).1,
   (catalog_parsers_shape.2.2.2.2.2.2.2.2.2.2.2.2 _ (List.cons_ne_nil _ _)).1⟩

/-- C6: when the target directory exists and `read_dir` finds at least
one entry, the fetcher returns the directory path at once with zero
network requests and an unchanged directory; a second invocation on the
resulting state again performs zero network requests and returns the
same path. -/
theorem downloader_idempotent_short_circuit
    (target : String) (dir : DirState) (net net2 : Except String (List String))
    (hp : dir.present = true) (hr : dir.readable = true) (hne : dir.entries ≠ []) :
    download_and_extract_nomenclator target dir net = (.ok target, dir, 0) ∧
    download_and_extract_nomenclator target
      (download_and_extract_nomenclator target dir net).2.1 net2 =
        (.ok target, dir, 0) := by
  have hcond : (dir.present && (dir.readable && !dir.entries.isEmpty)) = true := by
    simp [hp, hr, hne]
  have h1 : download_and_extract_nomenclator target dir net = (.ok target, dir, 0) := by
    simp [download_and_extract_nomenclator, hcond]
  refine ⟨h1, ?_⟩
  rw [h1]
  simp [download_and_extract_nomenclator, hcond]

/-- Witness for C6: the short-circuit evaluated on a concrete populated
directory. -/
theorem downloader_idempotent_short_circuit_witness :
    download_and_extract_nomenclator "nomenclator_data"
      ⟨true, true, ["Prescripcion.xml"]⟩ (.ok []) =
      (.ok "nomenclator_data", ⟨true, true, ["Prescripcion.xml"]⟩, 0) :=
  (downloader_idempotent_short_circuit "nomenclator_data"
    ⟨true, true, ["Prescripcion.xml"]⟩ (.ok []) (.error "net down")
    rfl rfl (by simp)).1

theorem runCatalogJob_isOk (j : CatalogJob) :
    (runCatalogJob j).isOk = (!j.present || j.parseOutcome.isOk) := by
  unfold runCatalogJob
  cases hp : j.present
  · rfl
  · cases j.parseOutcome <;> rfl

/-- C7: every catalog job produces exactly one collected result, and
the run fails overall if and only if some catalog job with an existing
source file failed to parse or the prescription step failed; a job
whose source file is absent yields an `Ok` result and can never make
the run fail. The failure test reads the fully collected result list,
so failure is signaled only after all jobs have completed. -/
theorem orchestrator_overall_failure_iff (jobs : List CatalogJob) (pOk : Bool) :
    (jobs.map runCatalogJob).length = jobs.length ∧
    (overallFailure (jobs.map runCatalogJob) pOk = true ↔
      (∃ j ∈ jobs, j.present = true ∧ j.parseOutcome.isOk = false) ∨ pOk = false) := by
  refine ⟨jobs.length_map runCatalogJob, ?_⟩
  unfold overallFailure failedCount
  rw [← List.countP_eq_length_filter]
  simp only [Bool.or_eq_true, decide_eq_true_iff, Bool.not_eq_true']
  rw [List.countP_pos_iff]
  constructor
  · rintro (⟨x, hx, hpx⟩ | hpok)
    · obtain ⟨j, hj, rfl⟩ := List.mem_map.mp hx
      rw [runCatalogJob_isOk] at hpx
      refine Or.inl ⟨j, hj, ?_⟩
      cases hjp : j.present <;> cases hjo : j.parseOutcome.isOk <;>
        simp [hjp, hjo] at hpx ⊢
    · exact Or.inr hpok
  · rintro (⟨j, hj, hjp, hjo⟩ | hpok)
    · refine Or.inl ⟨runCatalogJob j, List.mem_map_of_mem runCatalogJob hj, ?_⟩
      rw [runCatalogJob_isOk, hjp, hjo]
      rfl
    · exact Or.inr hpok

/-- Counterexample for C8: a job skipped because its source file does
not exist produces an `Ok` result — and the final summary's
"successful" count, which counts every `Ok` result, includes it: one
skipped job alone yields a successful count of 1, not 0. -/
theorem skipped_job_in_successful_count :
    runCatalogJob ⟨"DICCIONARIO_ATC.xml", "atc.csv", false, .ok ()⟩ =
      .ok ("DICCIONARIO_ATC.xml", "atc.csv", false) ∧
    successfulCount [runCatalogJob ⟨"DICCIONARIO_ATC.xml", "atc.csv", false, .ok ()⟩] =
      1 ∧
    successfulCount [runCatalogJob ⟨"DICCIONARIO_ATC.xml", "atc.csv", false, .ok ()⟩] ≠
      0 := by
  refine ⟨rfl, rfl, by simp [successfulCount, runCatalogJob, Except.isOk, Except.toBool]⟩

/-- C8 (amended): the summary distinguishes only `Ok` from `Err`
results: a job is counted as failed exactly when its file exists and
its parse fails, and every other job — including one skipped because
its file is absent — is counted in the "successful" tally. The skip is
visible in the job's own result flag, not in the summary counts. -/
theorem summary_counts_fold_skips_into_successful (jobs : List CatalogJob) :
    failedCount (jobs.map runCatalogJob) =
      (jobs.filter fun j => j.present && !j.parseOutcome.isOk).length ∧
    successfulCount (jobs.map runCatalogJob) =
      (jobs.filter fun j => !j.present || j.parseOutcome.isOk).length := by
  unfold failedCount successfulCount
  rw [List.filter_map, List.filter_map, List.length_map, List.length_map]
  constructor
  · congr 1
    apply List.filter_congr
    intro j _
    simp only [Function.comp_apply, runCatalogJob_isOk]
    cases j.present <;> cases hjo : j.parseOutcome.isOk <;> simp [hjo]
  · congr 1
    apply List.filter_congr
    intro j _
    simp only [Function.comp_apply, runCatalogJob_isOk]

/-- C9: under `buffer_unordered k` admission — a pending job may start
only while fewer than `k` jobs are running — every state reachable from
an initial state with `m` pending and no running jobs has at most `k`
jobs running simultaneously. -/
theorem pool_concurrency_bound (k m : Nat) (s : PoolState)
    (h : PoolReachable k ⟨m, 0, 0⟩ s) : s.running ≤ k := by
  induction h with
  | refl => exact Nat.zero_le k
  | tail _ step ih =>
    cases step with
    | start p r d hlt => exact hlt
    | finish p r d => exact Nat.le_of_succ_le_succ (Nat.le_succ_of_le ih)

/-- Witness for C9: a concrete two-step schedule with `k = 2` reaching
a state with 2 running jobs. -/
theorem pool_concurrency_bound_witness : (PoolState.mk 3 2 0).running ≤ 2 :=
  pool_concurrency_bound 2 5 ⟨3, 2, 0⟩
    (Relation.ReflTransGen.tail
      (Relation.ReflTransGen.tail Relation.ReflTransGen.refl
        (PoolStep.start 4 0 0 (by decide)))
      (PoolStep.start 3 1 0 (by decide)))

/-- C10: when `Prescripcion.xml` is absent, the prescription step
yields `Ok` without creating any prescription CSV file, the summary
reports the prescription step as successful, and — as long as no
catalog job failed — the run's overall outcome is success. -/
theorem prescription_absent_is_success (deser : Except String PrescriptionList)
    (results : List (Except String (String × String × Bool)))
    (hnofail : failedCount results = 0) :
    prescriptionStep false deser = (.ok (), []) ∧
    (prescriptionStep false deser).1.isOk = true ∧
    overallFailure results (prescriptionStep false deser).1.isOk = false := by
  refine ⟨rfl, rfl, ?_⟩
  simp [overallFailure, hnofail, prescriptionStep, Except.isOk, Except.toBool]

/-- Witness for C10: the absent-file branch evaluated with an empty
result list. -/
theorem prescription_absent_is_success_witness :
    prescriptionStep false (.error "no deserialization happened") = (.ok (), []) :=
  (prescription_absent_is_success (.error "no deserialization happened") [] rfl).1

end CimaRs
